import Mathlib

/-!
Shallow embedding of `src/oauth2client/google_credentials_json.py`, the
`GoogleCredentialsJson` wrapper for loading and serializing Google
Credentials JSON objects, together with proofs about its validation and
serialization behaviour.

Modelling conventions:
* A Python dict holding a decoded credential JSON object is embedded as an
  insertion-ordered association list `CredObj := List (String × Option String)`.
  A value of `none` embeds Python `None` (JSON `null`); a key that is absent
  from the list embeds a key that is absent from the dict.  The claims under
  study only ever involve string or null field values, so `Option String`
  values suffice.
* Raised exceptions are embedded as `Except CredError` results.
  `CredError.invalidCredentialModel msg` embeds
  `InvalidCredentialModelError(msg)`; `CredError.keyError k` embeds the
  `KeyError` raised by Python when the subscript lookup `obj[k]` fails.
* CPython compares the `credential_type` argument of `serialize_data` to the
  class constants with `is` (object identity), while `_check_credential_type`
  compares with `==` (value equality).  The argument is therefore embedded as
  `PyStr`: the string value together with an identity bit recording whether
  the object is the very class constant carrying that value.  Identity implies
  value equality; an equal string constructed at runtime has the bit unset,
  which makes the source's fall-through `None` return reachable.
* `serialize_data` can fall off the end of the function body (when
  `_check_credential_type` does not raise), in which case Python returns
  `None`; its result type is therefore `Except CredError (Option CredObj)`,
  with `.ok none` embedding that fall-through `None` return.
* `json.loads` / `json.load` are external collaborators (the JSON decoder);
  `loads` and `load` are embedded from the point where the decoded object
  enters the module's own pipeline.
-/

namespace OAuth2Client

/-- Modelled from the spec: the process-wide default token endpoint URL
constant `GOOGLE_TOKEN_URI`, imported by the module from the `oauth2client`
package root, which is not among the provided source files.  The spec only
says it is a well-known constant Google OAuth2 token endpoint URL; no claim
depends on its exact value. -/
def GOOGLE_TOKEN_URI : String := "https://accounts.google.com/o/oauth2/token"

/-- Modelled from the spec: the process-wide default revoke endpoint URL
constant `GOOGLE_REVOKE_URI`, imported by the module from the `oauth2client`
package root, which is not among the provided source files. -/
def GOOGLE_REVOKE_URI : String := "https://accounts.google.com/o/oauth2/revoke"

/-- A credential JSON object: a Python dict embedded as an insertion-ordered
association list from field name to field value (`none` = Python `None`). -/
abbrev CredObj := List (String × Option String)

/-- Embeds the raised exceptions of the module. -/
inductive CredError where
  /-- `InvalidCredentialModelError(msg)` from the module. -/
  | invalidCredentialModel (msg : String)
  /-- Python `KeyError(key)` from a failed dict subscript. -/
  | keyError (key : String)
deriving Repr, DecidableEq

/-- Python `k in obj` on a dict. -/
def dictContains (obj : CredObj) (k : String) : Bool :=
  obj.any (fun p => p.1 == k)

/-- Python `obj[k]` on a dict, as a partial lookup: `none` embeds the
`KeyError` case, `some v` the stored value `v`. -/
def dictGet (obj : CredObj) (k : String) : Option (Option String) :=
  (obj.find? (fun p => p.1 == k)).map (fun p => p.2)

/-- Python `obj[k] = v` on a dict: updates the value in place if the key is
present, otherwise appends the binding (insertion order). -/
def dictSet (obj : CredObj) (k : String) (v : Option String) : CredObj :=
  if dictContains obj k then
    obj.map (fun p => if p.1 == k then (k, v) else p)
  else
    obj ++ [(k, v)]

namespace GoogleCredentialsJson

def TYPE_SERVICE_ACCOUNT : String := "service_account"
def TYPE_AUTHORIZED_USER : String := "authorized_user"

def TYPE_FIELD_NAME : String := "type"
def CLIENT_ID_FIELD_NAME : String := "client_id"
def CLIENT_EMAIL_FIELD_NAME : String := "client_email"
def PRIVATE_KEY_ID_FIELD_NAME : String := "private_key_id"
def PRIVATE_KEY_FIELD_NAME : String := "private_key"
def CLIENT_SECRET_FIELD_NAME : String := "client_secret"
def REFRESH_TOKEN_FIELD_NAME : String := "refresh_token"

def TOKEN_URI_FIELD_NAME : String := "token_uri"
def REVOKE_URI_FIELD_NAME : String := "revoke_uri"

/-- `_REQUIRED_SERVICE_ACCOUNT_FIELDS`; the Python source builds a `set` from
this list, embedded here as the list in source order (all claims about the
set are order-insensitive except the joined error message, whose ordering the
spec leaves contractually open). -/
def _REQUIRED_SERVICE_ACCOUNT_FIELDS : List String :=
  [TYPE_FIELD_NAME, CLIENT_ID_FIELD_NAME, CLIENT_EMAIL_FIELD_NAME,
   PRIVATE_KEY_ID_FIELD_NAME, PRIVATE_KEY_FIELD_NAME]

/-- `_REQUIRED_AUTHORIZED_USER_FIELDS`, embedded like the service-account
field set. -/
def _REQUIRED_AUTHORIZED_USER_FIELDS : List String :=
  [TYPE_FIELD_NAME, CLIENT_ID_FIELD_NAME, CLIENT_SECRET_FIELD_NAME,
   REFRESH_TOKEN_FIELD_NAME]

/-- `required.difference(credential_object.keys())`: the required fields of a
variant that are not keys of the object, in the order of the required list. -/
def setDifference (required : List String) (obj : CredObj) : List String :=
  required.filter (fun f => !dictContains obj f)

/-- The message built by `_raise_exception_for_unknown_type`. -/
def unknownTypeMsg : String :=
  "'type' field should be defined (and have one of the '" ++
  TYPE_AUTHORIZED_USER ++ "' or '" ++ TYPE_SERVICE_ACCOUNT ++ "' values)"

/-- The message built by `_raise_exception_for_missing_fields`. -/
def missingFieldsMsg (missing_fields : List String) : String :=
  "The following field(s) must be defined: " ++
  String.intercalate ", " missing_fields

/-- `_check_credential_type`: raises `InvalidCredentialModelError` unless the
type is one of the two known constants. -/
def _check_credential_type (credential_type : Option String) :
    Except CredError Unit :=
  if !(credential_type == some TYPE_SERVICE_ACCOUNT ||
       credential_type == some TYPE_AUTHORIZED_USER) then
    .error (.invalidCredentialModel unknownTypeMsg)
  else
    .ok ()

/-- `_validate_credential_object`: rejects a `None` object, reads the `type`
field by subscript (a missing key is a Python `KeyError`), checks the type
value, computes the variant's missing required fields and raises if any are
missing, and otherwise returns the object unchanged.  The Python source
assigns `missing_fields` in two independent `if` statements keyed on the two
type constants; `_check_credential_type` has already guaranteed the type is
exactly one of them, so this is embedded as a two-way branch. -/
def _validate_credential_object (credential_object : Option CredObj) :
    Except CredError CredObj :=
  match credential_object with
  | none => .error (.invalidCredentialModel "Empty credential object.")
  | some obj =>
    match dictGet obj TYPE_FIELD_NAME with
    | none => .error (.keyError TYPE_FIELD_NAME)
    | some credential_type => do
      _check_credential_type credential_type
      let missing_fields :=
        if credential_type == some TYPE_AUTHORIZED_USER then
          setDifference _REQUIRED_AUTHORIZED_USER_FIELDS obj
        else
          setDifference _REQUIRED_SERVICE_ACCOUNT_FIELDS obj
      if missing_fields.isEmpty then
        .ok obj
      else
        .error (.invalidCredentialModel (missingFieldsMsg missing_fields))

/-- `_set_optional_fields`: sets `token_uri` and `revoke_uri` to the supplied
values only when the corresponding key is not already present (the two `if
... not in obj` statements of the source, applied in order). -/
def _set_optional_fields (obj : CredObj) (token_uri revoke_uri : String) :
    CredObj :=
  let obj1 :=
    if !dictContains obj TOKEN_URI_FIELD_NAME then
      dictSet obj TOKEN_URI_FIELD_NAME (some token_uri)
    else obj
  if !dictContains obj1 REVOKE_URI_FIELD_NAME then
    dictSet obj1 REVOKE_URI_FIELD_NAME (some revoke_uri)
  else obj1

/-- The `credential_type` argument of `serialize_data` as a Python object:
its value (`none` embeds Python `None`) together with object identity
information.  `identical` records whether the object is the very class
constant that carries its value (so the caller wrote
`GoogleCredentialsJson.TYPE_SERVICE_ACCOUNT` itself, or in CPython an
interned literal); an equal string constructed at runtime (sliced,
concatenated, decoded from JSON) has `identical = false`.  The flag only
matters when the value equals one of the two constants. -/
structure PyStr where
  val : Option String
  identical : Bool
deriving Repr, DecidableEq

/-- CPython `x is cls.C` for a class constant `C`: object identity, which
holds exactly when the object is that constant — so only when the values
agree and the identity bit is set. -/
def pyIs (x : PyStr) (c : String) : Bool :=
  x.identical && (x.val == some c)

/-- The class constant `TYPE_SERVICE_ACCOUNT` passed as the
`credential_type` argument: identical to itself. -/
def saTypeConst : PyStr := ⟨some TYPE_SERVICE_ACCOUNT, true⟩

/-- The class constant `TYPE_AUTHORIZED_USER` passed as the
`credential_type` argument: identical to itself. -/
def auTypeConst : PyStr := ⟨some TYPE_AUTHORIZED_USER, true⟩

/-- `serialize_data`: builds the credential dict for the recognised variant
by successive key assignments on an empty dict, optionally back-fills the
optional URI fields, and validates.  The two build branches are guarded by
object identity (`credential_type is cls.TYPE_...`, embedded as `pyIs`),
while the final fallback calls `_check_credential_type`, which compares by
value; when both identity guards fail but the value check passes (an equal
but non-identical string) no exception is raised and the Python function
falls off the end returning `None` (embedded as `.ok none`).  Parameters
appear in source order; the Python defaults are `None` for the field
arguments, the two module constants for the URIs, and `False` for
`include_optional_fields` — callers here always pass them explicitly. -/
def serialize_data (credential_type : PyStr)
    (client_id client_email client_secret
      private_key private_key_id refresh_token : Option String)
    (token_uri revoke_uri : String) (include_optional_fields : Bool) :
    Except CredError (Option CredObj) :=
  let credential_object : CredObj := []
  if pyIs credential_type TYPE_SERVICE_ACCOUNT then
    let credential_object :=
      dictSet credential_object TYPE_FIELD_NAME (some TYPE_SERVICE_ACCOUNT)
    let credential_object :=
      dictSet credential_object CLIENT_ID_FIELD_NAME client_id
    let credential_object :=
      dictSet credential_object CLIENT_EMAIL_FIELD_NAME client_email
    let credential_object :=
      dictSet credential_object PRIVATE_KEY_ID_FIELD_NAME private_key_id
    let credential_object :=
      dictSet credential_object PRIVATE_KEY_FIELD_NAME private_key
    let credential_object :=
      if include_optional_fields then
        _set_optional_fields credential_object token_uri revoke_uri
      else credential_object
    (_validate_credential_object (some credential_object)).map some
  else if pyIs credential_type TYPE_AUTHORIZED_USER then
    let credential_object :=
      dictSet credential_object TYPE_FIELD_NAME (some TYPE_AUTHORIZED_USER)
    let credential_object :=
      dictSet credential_object CLIENT_ID_FIELD_NAME client_id
    let credential_object :=
      dictSet credential_object CLIENT_SECRET_FIELD_NAME client_secret
    let credential_object :=
      dictSet credential_object REFRESH_TOKEN_FIELD_NAME refresh_token
    let credential_object :=
      if include_optional_fields then
        _set_optional_fields credential_object token_uri revoke_uri
      else credential_object
    (_validate_credential_object (some credential_object)).map some
  else do
    _check_credential_type credential_type.val
    pure none

/-- `loads` from the point where the external JSON decoder has produced the
object: back-fill the optional URI fields with the module defaults, then
validate.  Decoding failures (`ValueError` from `json.loads`) propagate
before this pipeline runs and are outside the embedded component. -/
def loads (decoded : CredObj) : Except CredError CredObj :=
  _validate_credential_object
    (some (_set_optional_fields decoded GOOGLE_TOKEN_URI GOOGLE_REVOKE_URI))

/-- `load` from the point where the external JSON decoder has consumed the
stream: identical pipeline to `loads`. -/
def load (decoded : CredObj) : Except CredError CredObj :=
  _validate_credential_object
    (some (_set_optional_fields decoded GOOGLE_TOKEN_URI GOOGLE_REVOKE_URI))

end GoogleCredentialsJson

end OAuth2Client

/-!
Helper lemmas about the dict embedding and the validation routine.  These are
shared infrastructure for the claim theorems below.
-/

namespace OAuth2Client

theorem dictGet_eq_none_iff (obj : CredObj) (k : String) :
    dictGet obj k = none ↔ dictContains obj k = false := by
  simp [dictGet, dictContains, List.find?_eq_none, List.any_eq_false]

theorem contains_of_dictGet_some {obj : CredObj} {k : String} {v : Option String}
    (h : dictGet obj k = some v) : dictContains obj k = true := by
  by_contra hc
  rw [(dictGet_eq_none_iff obj k).2 (by simpa using hc)] at h
  cases h

theorem dictGet_append (obj l : CredObj) (k : String) :
    dictGet (obj ++ l) k = (dictGet obj k).or (dictGet l k) := by
  unfold dictGet
  rw [List.find?_append]
  cases List.find? (fun p => p.1 == k) obj <;> simp [Option.or]

theorem dictContains_append (obj l : CredObj) (k : String) :
    dictContains (obj ++ l) k = (dictContains obj k || dictContains l k) := by
  simp [dictContains, List.any_append]

theorem dictContains_single (k k' : String) (v : Option String) :
    dictContains [(k, v)] k' = (k == k') := by
  simp [dictContains]

namespace GoogleCredentialsJson

theorem dictSet_of_not_contains {obj : CredObj} {k : String} (v : Option String)
    (h : dictContains obj k = false) : dictSet obj k v = obj ++ [(k, v)] := by
  simp [dictSet, h]

theorem dictSetIfAbsent_eq (obj : CredObj) (k : String) (v : Option String) :
    (if !dictContains obj k then dictSet obj k v else obj) =
      obj ++ (if dictContains obj k then ([] : CredObj) else [(k, v)]) := by
  cases h : dictContains obj k <;> simp [h, dictSet_of_not_contains]

theorem set_optional_fields_eq (obj : CredObj) (tu ru : String) :
    _set_optional_fields obj tu ru =
      (obj ++ (if dictContains obj TOKEN_URI_FIELD_NAME then ([] : CredObj)
               else [(TOKEN_URI_FIELD_NAME, some tu)]))
          ++ (if dictContains obj REVOKE_URI_FIELD_NAME then ([] : CredObj)
              else [(REVOKE_URI_FIELD_NAME, some ru)]) := by
  unfold _set_optional_fields
  simp only [dictSetIfAbsent_eq]
  have h3 : dictContains
      (obj ++ (if dictContains obj TOKEN_URI_FIELD_NAME then ([] : CredObj)
               else [(TOKEN_URI_FIELD_NAME, some tu)]))
      REVOKE_URI_FIELD_NAME = dictContains obj REVOKE_URI_FIELD_NAME := by
    cases h : dictContains obj TOKEN_URI_FIELD_NAME <;>
      simp [h, dictContains_append, dictContains_single,
        show (TOKEN_URI_FIELD_NAME == REVOKE_URI_FIELD_NAME) = false from by decide]
  rw [h3]

theorem validate_unfold_ok (obj : CredObj) {v : Option String}
    (hg : dictGet obj TYPE_FIELD_NAME = some v)
    (hok : _check_credential_type v = .ok ()) :
    _validate_credential_object (some obj) =
      (if (if v == some TYPE_AUTHORIZED_USER then
             setDifference _REQUIRED_AUTHORIZED_USER_FIELDS obj
           else setDifference _REQUIRED_SERVICE_ACCOUNT_FIELDS obj).isEmpty
       then .ok obj
       else .error (.invalidCredentialModel (missingFieldsMsg
         (if v == some TYPE_AUTHORIZED_USER then
            setDifference _REQUIRED_AUTHORIZED_USER_FIELDS obj
          else setDifference _REQUIRED_SERVICE_ACCOUNT_FIELDS obj)))) := by
  simp [_validate_credential_object, hg, hok, Bind.bind, Except.bind]

theorem validate_unfold_err (obj : CredObj) {v : Option String} {e : CredError}
    (hg : dictGet obj TYPE_FIELD_NAME = some v)
    (herr : _check_credential_type v = .error e) :
    _validate_credential_object (some obj) = .error e := by
  simp [_validate_credential_object, hg, herr, Bind.bind, Except.bind]

theorem validate_none_type (obj : CredObj)
    (hg : dictGet obj TYPE_FIELD_NAME = none) :
    _validate_credential_object (some obj) = .error (.keyError TYPE_FIELD_NAME) := by
  simp [_validate_credential_object, hg]

theorem check_credential_type_err {v : Option String}
    (h1 : v ≠ some TYPE_SERVICE_ACCOUNT) (h2 : v ≠ some TYPE_AUTHORIZED_USER) :
    _check_credential_type v = .error (.invalidCredentialModel unknownTypeMsg) := by
  simp [_check_credential_type, h1, h2]

theorem validate_some_result (obj : CredObj) :
    _validate_credential_object (some obj) = .ok obj ∨
    ∃ e, _validate_credential_object (some obj) = .error e := by
  cases hg : dictGet obj TYPE_FIELD_NAME with
  | none => exact .inr ⟨.keyError TYPE_FIELD_NAME, validate_none_type obj hg⟩
  | some v =>
    cases hc : _check_credential_type v with
    | error e => exact .inr ⟨e, validate_unfold_err obj hg hc⟩
    | ok u =>
      cases u
      rw [validate_unfold_ok obj hg hc]
      by_cases hm : (if v == some TYPE_AUTHORIZED_USER then
          setDifference _REQUIRED_AUTHORIZED_USER_FIELDS obj
        else setDifference _REQUIRED_SERVICE_ACCOUNT_FIELDS obj).isEmpty = true
      · rw [if_pos hm]
        exact .inl rfl
      · rw [if_neg hm]
        exact .inr ⟨_, rfl⟩

theorem validate_ok_eq {obj doc : CredObj}
    (h : _validate_credential_object (some obj) = .ok doc) : doc = obj := by
  rcases validate_some_result obj with h2 | ⟨e, h2⟩
  · rw [h] at h2
    exact Except.ok.inj h2
  · rw [h2] at h
    cases h

end GoogleCredentialsJson

end OAuth2Client

namespace OAuth2Client

namespace GoogleCredentialsJson

/-- C10 counterexample: the claim quotes the message as "empty credential
object", but `_validate_credential_object(None)` raises
`InvalidCredentialModelError` with the exact message "Empty credential
object." (capitalised, trailing period), which differs from the quoted
string. -/
theorem claim_C10_counterexample :
    _validate_credential_object none =
      .error (.invalidCredentialModel "Empty credential object.") ∧
    "Empty credential object." ≠ "empty credential object" :=
  ⟨rfl, by decide⟩

/-- C10 (amended): for the null/absent document, validate fails with
`InvalidCredentialModelError` carrying the exact message "Empty credential
object.", before any field of the document is read (the null check is the
first statement of the routine). -/
theorem claim_C10 :
    _validate_credential_object none =
      .error (.invalidCredentialModel "Empty credential object.") := rfl

/-- C9: for every document that lacks the `type` field entirely, validate
fails with a `KeyError`-style field-lookup error, and that error is distinct
from every `InvalidCredentialModelError` (the constructors are disjoint), so
it is a different failure path from the unknown-type check. -/
theorem claim_C9 (obj : CredObj) (h : dictContains obj TYPE_FIELD_NAME = false) :
    _validate_credential_object (some obj) = .error (.keyError TYPE_FIELD_NAME) ∧
    (∀ msg, CredError.keyError TYPE_FIELD_NAME ≠
      CredError.invalidCredentialModel msg) := by
  refine ⟨validate_none_type obj ((dictGet_eq_none_iff obj TYPE_FIELD_NAME).2 h), ?_⟩
  intro msg hcontra
  cases hcontra

/-- Witness for C9 at the concrete document `{"client_id": "123"}`. -/
theorem claim_C9_witness :
    _validate_credential_object (some [(CLIENT_ID_FIELD_NAME, some "123")]) =
      .error (.keyError TYPE_FIELD_NAME) :=
  (claim_C9 [(CLIENT_ID_FIELD_NAME, some "123")] (by decide)).1

/-- C6: for each supported variant and every assignment of string values to
all of its required fields, `serialize_data` succeeds and returns a document
whose discriminant equals the variant and whose fields equal exactly the
supplied values, containing exactly the discriminant plus the variant's
fields, with `token_uri`/`revoke_uri` added exactly when the optional-fields
flag is set. -/
theorem claim_C6 (ci ce cs pk pki rt tu ru : String) :
    serialize_data saTypeConst (some ci) (some ce) none
        (some pk) (some pki) none tu ru false =
      .ok (some [(TYPE_FIELD_NAME, some TYPE_SERVICE_ACCOUNT),
                 (CLIENT_ID_FIELD_NAME, some ci),
                 (CLIENT_EMAIL_FIELD_NAME, some ce),
                 (PRIVATE_KEY_ID_FIELD_NAME, some pki),
                 (PRIVATE_KEY_FIELD_NAME, some pk)]) ∧
    serialize_data saTypeConst (some ci) (some ce) none
        (some pk) (some pki) none tu ru true =
      .ok (some [(TYPE_FIELD_NAME, some TYPE_SERVICE_ACCOUNT),
                 (CLIENT_ID_FIELD_NAME, some ci),
                 (CLIENT_EMAIL_FIELD_NAME, some ce),
                 (PRIVATE_KEY_ID_FIELD_NAME, some pki),
                 (PRIVATE_KEY_FIELD_NAME, some pk),
                 (TOKEN_URI_FIELD_NAME, some tu),
                 (REVOKE_URI_FIELD_NAME, some ru)]) ∧
    serialize_data auTypeConst (some ci) none (some cs)
        none none (some rt) tu ru false =
      .ok (some [(TYPE_FIELD_NAME, some TYPE_AUTHORIZED_USER),
                 (CLIENT_ID_FIELD_NAME, some ci),
                 (CLIENT_SECRET_FIELD_NAME, some cs),
                 (REFRESH_TOKEN_FIELD_NAME, some rt)]) ∧
    serialize_data auTypeConst (some ci) none (some cs)
        none none (some rt) tu ru true =
      .ok (some [(TYPE_FIELD_NAME, some TYPE_AUTHORIZED_USER),
                 (CLIENT_ID_FIELD_NAME, some ci),
                 (CLIENT_SECRET_FIELD_NAME, some cs),
                 (REFRESH_TOKEN_FIELD_NAME, some rt),
                 (TOKEN_URI_FIELD_NAME, some tu),
                 (REVOKE_URI_FIELD_NAME, some ru)]) := by
  refine ⟨?_, ?_, ?_, ?_⟩ <;>
    simp [serialize_data, pyIs, saTypeConst, auTypeConst, dictSet, dictContains, dictGet,
        _validate_credential_object, _check_credential_type, setDifference,
        _set_optional_fields, missingFieldsMsg, loads, load, Except.map,
        TYPE_SERVICE_ACCOUNT, TYPE_AUTHORIZED_USER, TYPE_FIELD_NAME,
        CLIENT_ID_FIELD_NAME, CLIENT_EMAIL_FIELD_NAME,
        PRIVATE_KEY_ID_FIELD_NAME, PRIVATE_KEY_FIELD_NAME,
        CLIENT_SECRET_FIELD_NAME, REFRESH_TOKEN_FIELD_NAME,
        TOKEN_URI_FIELD_NAME, REVOKE_URI_FIELD_NAME,
        _REQUIRED_SERVICE_ACCOUNT_FIELDS, _REQUIRED_AUTHORIZED_USER_FIELDS,
        Bind.bind, Except.bind]

/-- C7: with the include-optional-fields flag unset, the document returned
by `serialize_data` contains neither `token_uri` nor `revoke_uri` (for any
supplied field values and URI overrides); with the flag set and the default
URI arguments (no override), the returned document maps `token_uri` and
`revoke_uri` to the process-wide default constants. -/
theorem claim_C7 (ci ce cs pk pki rt : Option String) (tu ru : String) :
    (serialize_data saTypeConst ci ce cs pk pki rt tu ru false =
      .ok (some [(TYPE_FIELD_NAME, some TYPE_SERVICE_ACCOUNT),
                 (CLIENT_ID_FIELD_NAME, ci), (CLIENT_EMAIL_FIELD_NAME, ce),
                 (PRIVATE_KEY_ID_FIELD_NAME, pki), (PRIVATE_KEY_FIELD_NAME, pk)]) ∧
     dictContains [(TYPE_FIELD_NAME, some TYPE_SERVICE_ACCOUNT),
                 (CLIENT_ID_FIELD_NAME, ci), (CLIENT_EMAIL_FIELD_NAME, ce),
                 (PRIVATE_KEY_ID_FIELD_NAME, pki), (PRIVATE_KEY_FIELD_NAME, pk)]
       TOKEN_URI_FIELD_NAME = false ∧
     dictContains [(TYPE_FIELD_NAME, some TYPE_SERVICE_ACCOUNT),
                 (CLIENT_ID_FIELD_NAME, ci), (CLIENT_EMAIL_FIELD_NAME, ce),
                 (PRIVATE_KEY_ID_FIELD_NAME, pki), (PRIVATE_KEY_FIELD_NAME, pk)]
       REVOKE_URI_FIELD_NAME = false) ∧
    (serialize_data auTypeConst ci ce cs pk pki rt tu ru false =
      .ok (some [(TYPE_FIELD_NAME, some TYPE_AUTHORIZED_USER),
                 (CLIENT_ID_FIELD_NAME, ci), (CLIENT_SECRET_FIELD_NAME, cs),
                 (REFRESH_TOKEN_FIELD_NAME, rt)]) ∧
     dictContains [(TYPE_FIELD_NAME, some TYPE_AUTHORIZED_USER),
                 (CLIENT_ID_FIELD_NAME, ci), (CLIENT_SECRET_FIELD_NAME, cs),
                 (REFRESH_TOKEN_FIELD_NAME, rt)] TOKEN_URI_FIELD_NAME = false ∧
     dictContains [(TYPE_FIELD_NAME, some TYPE_AUTHORIZED_USER),
                 (CLIENT_ID_FIELD_NAME, ci), (CLIENT_SECRET_FIELD_NAME, cs),
                 (REFRESH_TOKEN_FIELD_NAME, rt)] REVOKE_URI_FIELD_NAME = false) ∧
    (serialize_data saTypeConst ci ce cs pk pki rt
        GOOGLE_TOKEN_URI GOOGLE_REVOKE_URI true =
      .ok (some [(TYPE_FIELD_NAME, some TYPE_SERVICE_ACCOUNT),
                 (CLIENT_ID_FIELD_NAME, ci), (CLIENT_EMAIL_FIELD_NAME, ce),
                 (PRIVATE_KEY_ID_FIELD_NAME, pki), (PRIVATE_KEY_FIELD_NAME, pk),
                 (TOKEN_URI_FIELD_NAME, some GOOGLE_TOKEN_URI),
                 (REVOKE_URI_FIELD_NAME, some GOOGLE_REVOKE_URI)]) ∧
     dictGet [(TYPE_FIELD_NAME, some TYPE_SERVICE_ACCOUNT),
                 (CLIENT_ID_FIELD_NAME, ci), (CLIENT_EMAIL_FIELD_NAME, ce),
                 (PRIVATE_KEY_ID_FIELD_NAME, pki), (PRIVATE_KEY_FIELD_NAME, pk),
                 (TOKEN_URI_FIELD_NAME, some GOOGLE_TOKEN_URI),
                 (REVOKE_URI_FIELD_NAME, some GOOGLE_REVOKE_URI)]
       TOKEN_URI_FIELD_NAME = some (some GOOGLE_TOKEN_URI) ∧
     dictGet [(TYPE_FIELD_NAME, some TYPE_SERVICE_ACCOUNT),
                 (CLIENT_ID_FIELD_NAME, ci), (CLIENT_EMAIL_FIELD_NAME, ce),
                 (PRIVATE_KEY_ID_FIELD_NAME, pki), (PRIVATE_KEY_FIELD_NAME, pk),
                 (TOKEN_URI_FIELD_NAME, some GOOGLE_TOKEN_URI),
                 (REVOKE_URI_FIELD_NAME, some GOOGLE_REVOKE_URI)]
       REVOKE_URI_FIELD_NAME = some (some GOOGLE_REVOKE_URI)) ∧
    (serialize_data auTypeConst ci ce cs pk pki rt
        GOOGLE_TOKEN_URI GOOGLE_REVOKE_URI true =
      .ok (some [(TYPE_FIELD_NAME, some TYPE_AUTHORIZED_USER),
                 (CLIENT_ID_FIELD_NAME, ci), (CLIENT_SECRET_FIELD_NAME, cs),
                 (REFRESH_TOKEN_FIELD_NAME, rt),
                 (TOKEN_URI_FIELD_NAME, some GOOGLE_TOKEN_URI),
                 (REVOKE_URI_FIELD_NAME, some GOOGLE_REVOKE_URI)]) ∧
     dictGet [(TYPE_FIELD_NAME, some TYPE_AUTHORIZED_USER),
                 (CLIENT_ID_FIELD_NAME, ci), (CLIENT_SECRET_FIELD_NAME, cs),
                 (REFRESH_TOKEN_FIELD_NAME, rt),
                 (TOKEN_URI_FIELD_NAME, some GOOGLE_TOKEN_URI),
                 (REVOKE_URI_FIELD_NAME, some GOOGLE_REVOKE_URI)]
       TOKEN_URI_FIELD_NAME = some (some GOOGLE_TOKEN_URI) ∧
     dictGet [(TYPE_FIELD_NAME, some TYPE_AUTHORIZED_USER),
                 (CLIENT_ID_FIELD_NAME, ci), (CLIENT_SECRET_FIELD_NAME, cs),
                 (REFRESH_TOKEN_FIELD_NAME, rt),
                 (TOKEN_URI_FIELD_NAME, some GOOGLE_TOKEN_URI),
                 (REVOKE_URI_FIELD_NAME, some GOOGLE_REVOKE_URI)]
       REVOKE_URI_FIELD_NAME = some (some GOOGLE_REVOKE_URI)) := by
  refine ⟨⟨?_, ?_, ?_⟩, ⟨?_, ?_, ?_⟩, ⟨?_, ?_, ?_⟩, ⟨?_, ?_, ?_⟩⟩ <;>
    simp [serialize_data, pyIs, saTypeConst, auTypeConst, dictSet, dictContains, dictGet,
        _validate_credential_object, _check_credential_type, setDifference,
        _set_optional_fields, missingFieldsMsg, loads, load, Except.map,
        TYPE_SERVICE_ACCOUNT, TYPE_AUTHORIZED_USER, TYPE_FIELD_NAME,
        CLIENT_ID_FIELD_NAME, CLIENT_EMAIL_FIELD_NAME,
        PRIVATE_KEY_ID_FIELD_NAME, PRIVATE_KEY_FIELD_NAME,
        CLIENT_SECRET_FIELD_NAME, REFRESH_TOKEN_FIELD_NAME,
        TOKEN_URI_FIELD_NAME, REVOKE_URI_FIELD_NAME,
        _REQUIRED_SERVICE_ACCOUNT_FIELDS, _REQUIRED_AUTHORIZED_USER_FIELDS,
        Bind.bind, Except.bind]

/-- C8: for each variant with all required fields populated, parsing the
output of a successful `serialize_data` call with the optional-fields flag
set yields an equal document.  `loads` is applied to the built dict itself:
the `json.dumps`/`json.loads` round trip on a flat string map is the
identity and belongs to the external decoder collaborator. -/
theorem claim_C8 (ci ce cs pk pki rt tu ru : String) :
    (serialize_data saTypeConst (some ci) (some ce) none
        (some pk) (some pki) none tu ru true =
      .ok (some [(TYPE_FIELD_NAME, some TYPE_SERVICE_ACCOUNT),
                 (CLIENT_ID_FIELD_NAME, some ci),
                 (CLIENT_EMAIL_FIELD_NAME, some ce),
                 (PRIVATE_KEY_ID_FIELD_NAME, some pki),
                 (PRIVATE_KEY_FIELD_NAME, some pk),
                 (TOKEN_URI_FIELD_NAME, some tu),
                 (REVOKE_URI_FIELD_NAME, some ru)]) ∧
     loads [(TYPE_FIELD_NAME, some TYPE_SERVICE_ACCOUNT),
                 (CLIENT_ID_FIELD_NAME, some ci),
                 (CLIENT_EMAIL_FIELD_NAME, some ce),
                 (PRIVATE_KEY_ID_FIELD_NAME, some pki),
                 (PRIVATE_KEY_FIELD_NAME, some pk),
                 (TOKEN_URI_FIELD_NAME, some tu),
                 (REVOKE_URI_FIELD_NAME, some ru)] =
      .ok [(TYPE_FIELD_NAME, some TYPE_SERVICE_ACCOUNT),
                 (CLIENT_ID_FIELD_NAME, some ci),
                 (CLIENT_EMAIL_FIELD_NAME, some ce),
                 (PRIVATE_KEY_ID_FIELD_NAME, some pki),
                 (PRIVATE_KEY_FIELD_NAME, some pk),
                 (TOKEN_URI_FIELD_NAME, some tu),
                 (REVOKE_URI_FIELD_NAME, some ru)]) ∧
    (serialize_data auTypeConst (some ci) none (some cs)
        none none (some rt) tu ru true =
      .ok (some [(TYPE_FIELD_NAME, some TYPE_AUTHORIZED_USER),
                 (CLIENT_ID_FIELD_NAME, some ci),
                 (CLIENT_SECRET_FIELD_NAME, some cs),
                 (REFRESH_TOKEN_FIELD_NAME, some rt),
                 (TOKEN_URI_FIELD_NAME, some tu),
                 (REVOKE_URI_FIELD_NAME, some ru)]) ∧
     loads [(TYPE_FIELD_NAME, some TYPE_AUTHORIZED_USER),
                 (CLIENT_ID_FIELD_NAME, some ci),
                 (CLIENT_SECRET_FIELD_NAME, some cs),
                 (REFRESH_TOKEN_FIELD_NAME, some rt),
                 (TOKEN_URI_FIELD_NAME, some tu),
                 (REVOKE_URI_FIELD_NAME, some ru)] =
      .ok [(TYPE_FIELD_NAME, some TYPE_AUTHORIZED_USER),
                 (CLIENT_ID_FIELD_NAME, some ci),
                 (CLIENT_SECRET_FIELD_NAME, some cs),
                 (REFRESH_TOKEN_FIELD_NAME, some rt),
                 (TOKEN_URI_FIELD_NAME, some tu),
                 (REVOKE_URI_FIELD_NAME, some ru)]) := by
  refine ⟨⟨?_, ?_⟩, ⟨?_, ?_⟩⟩ <;>
    simp [serialize_data, pyIs, saTypeConst, auTypeConst, dictSet, dictContains, dictGet,
        _validate_credential_object, _check_credential_type, setDifference,
        _set_optional_fields, missingFieldsMsg, loads, load, Except.map,
        TYPE_SERVICE_ACCOUNT, TYPE_AUTHORIZED_USER, TYPE_FIELD_NAME,
        CLIENT_ID_FIELD_NAME, CLIENT_EMAIL_FIELD_NAME,
        PRIVATE_KEY_ID_FIELD_NAME, PRIVATE_KEY_FIELD_NAME,
        CLIENT_SECRET_FIELD_NAME, REFRESH_TOKEN_FIELD_NAME,
        TOKEN_URI_FIELD_NAME, REVOKE_URI_FIELD_NAME,
        _REQUIRED_SERVICE_ACCOUNT_FIELDS, _REQUIRED_AUTHORIZED_USER_FIELDS,
        Bind.bind, Except.bind]

/-- C1 counterexample: `serialize_data("service_account")` with no field
values supplied returns a document (it does not raise during validation),
and that document's `private_key` field is present with the `None` sentinel
value — validation checks key presence only, so the absent values are not
surfaced. -/
theorem claim_C1_counterexample :
    serialize_data saTypeConst none none none none none none
        GOOGLE_TOKEN_URI GOOGLE_REVOKE_URI false =
      .ok (some [(TYPE_FIELD_NAME, some TYPE_SERVICE_ACCOUNT),
                 (CLIENT_ID_FIELD_NAME, none), (CLIENT_EMAIL_FIELD_NAME, none),
                 (PRIVATE_KEY_ID_FIELD_NAME, none),
                 (PRIVATE_KEY_FIELD_NAME, none)]) ∧
    dictGet [(TYPE_FIELD_NAME, some TYPE_SERVICE_ACCOUNT),
             (CLIENT_ID_FIELD_NAME, none), (CLIENT_EMAIL_FIELD_NAME, none),
             (PRIVATE_KEY_ID_FIELD_NAME, none), (PRIVATE_KEY_FIELD_NAME, none)]
      PRIVATE_KEY_FIELD_NAME = some none := by
  refine ⟨?_, ?_⟩ <;>
    simp [serialize_data, pyIs, saTypeConst, auTypeConst, dictSet, dictContains, dictGet,
        _validate_credential_object, _check_credential_type, setDifference,
        _set_optional_fields, missingFieldsMsg, loads, load, Except.map,
        TYPE_SERVICE_ACCOUNT, TYPE_AUTHORIZED_USER, TYPE_FIELD_NAME,
        CLIENT_ID_FIELD_NAME, CLIENT_EMAIL_FIELD_NAME,
        PRIVATE_KEY_ID_FIELD_NAME, PRIVATE_KEY_FIELD_NAME,
        CLIENT_SECRET_FIELD_NAME, REFRESH_TOKEN_FIELD_NAME,
        TOKEN_URI_FIELD_NAME, REVOKE_URI_FIELD_NAME,
        _REQUIRED_SERVICE_ACCOUNT_FIELDS, _REQUIRED_AUTHORIZED_USER_FIELDS,
        Bind.bind, Except.bind]

/-- C1 (amended): `serialize_data` inserts every required key of the
requested variant even when the caller supplied no value (the key then maps
to the `None` sentinel), so the key-presence validation passes and the
document is returned; every document returned by `serialize_data` has all
required keys of its variant present, though their values may be the absent
sentinel. -/
theorem claim_C1 (ci ce cs pk pki rt : Option String) (tu ru : String)
    (flag : Bool) :
    (∀ doc, serialize_data saTypeConst ci ce cs pk pki rt
        tu ru flag = .ok (some doc) →
      ∀ f ∈ _REQUIRED_SERVICE_ACCOUNT_FIELDS, dictContains doc f = true) ∧
    (∀ doc, serialize_data auTypeConst ci ce cs pk pki rt
        tu ru flag = .ok (some doc) →
      ∀ f ∈ _REQUIRED_AUTHORIZED_USER_FIELDS, dictContains doc f = true) := by
  have esa : ∀ fl : Bool, serialize_data saTypeConst
      ci ce cs pk pki rt tu ru fl =
      .ok (some ([(TYPE_FIELD_NAME, some TYPE_SERVICE_ACCOUNT),
                  (CLIENT_ID_FIELD_NAME, ci), (CLIENT_EMAIL_FIELD_NAME, ce),
                  (PRIVATE_KEY_ID_FIELD_NAME, pki),
                  (PRIVATE_KEY_FIELD_NAME, pk)] ++
        (if fl then [(TOKEN_URI_FIELD_NAME, some tu),
                     (REVOKE_URI_FIELD_NAME, some ru)] else []))) := by
    intro fl
    cases fl <;> simp [serialize_data, pyIs, saTypeConst, auTypeConst, dictSet, dictContains, dictGet,
        _validate_credential_object, _check_credential_type, setDifference,
        _set_optional_fields, missingFieldsMsg, loads, load, Except.map,
        TYPE_SERVICE_ACCOUNT, TYPE_AUTHORIZED_USER, TYPE_FIELD_NAME,
        CLIENT_ID_FIELD_NAME, CLIENT_EMAIL_FIELD_NAME,
        PRIVATE_KEY_ID_FIELD_NAME, PRIVATE_KEY_FIELD_NAME,
        CLIENT_SECRET_FIELD_NAME, REFRESH_TOKEN_FIELD_NAME,
        TOKEN_URI_FIELD_NAME, REVOKE_URI_FIELD_NAME,
        _REQUIRED_SERVICE_ACCOUNT_FIELDS, _REQUIRED_AUTHORIZED_USER_FIELDS,
        Bind.bind, Except.bind]
  have eau : ∀ fl : Bool, serialize_data auTypeConst
      ci ce cs pk pki rt tu ru fl =
      .ok (some ([(TYPE_FIELD_NAME, some TYPE_AUTHORIZED_USER),
                  (CLIENT_ID_FIELD_NAME, ci), (CLIENT_SECRET_FIELD_NAME, cs),
                  (REFRESH_TOKEN_FIELD_NAME, rt)] ++
        (if fl then [(TOKEN_URI_FIELD_NAME, some tu),
                     (REVOKE_URI_FIELD_NAME, some ru)] else []))) := by
    intro fl
    cases fl <;> simp [serialize_data, pyIs, saTypeConst, auTypeConst, dictSet, dictContains, dictGet,
        _validate_credential_object, _check_credential_type, setDifference,
        _set_optional_fields, missingFieldsMsg, loads, load, Except.map,
        TYPE_SERVICE_ACCOUNT, TYPE_AUTHORIZED_USER, TYPE_FIELD_NAME,
        CLIENT_ID_FIELD_NAME, CLIENT_EMAIL_FIELD_NAME,
        PRIVATE_KEY_ID_FIELD_NAME, PRIVATE_KEY_FIELD_NAME,
        CLIENT_SECRET_FIELD_NAME, REFRESH_TOKEN_FIELD_NAME,
        TOKEN_URI_FIELD_NAME, REVOKE_URI_FIELD_NAME,
        _REQUIRED_SERVICE_ACCOUNT_FIELDS, _REQUIRED_AUTHORIZED_USER_FIELDS,
        Bind.bind, Except.bind]
  refine ⟨fun doc h f hf => ?_, fun doc h f hf => ?_⟩
  · rw [esa flag] at h
    obtain rfl := (Option.some.inj (Except.ok.inj h)).symm
    simp only [_REQUIRED_SERVICE_ACCOUNT_FIELDS, List.mem_cons,
      List.not_mem_nil, or_false] at hf
    rw [dictContains_append]
    rcases hf with rfl | rfl | rfl | rfl | rfl <;>
      simp [dictContains, TYPE_FIELD_NAME, CLIENT_ID_FIELD_NAME,
        CLIENT_EMAIL_FIELD_NAME, PRIVATE_KEY_ID_FIELD_NAME,
        PRIVATE_KEY_FIELD_NAME]
  · rw [eau flag] at h
    obtain rfl := (Option.some.inj (Except.ok.inj h)).symm
    simp only [_REQUIRED_AUTHORIZED_USER_FIELDS, List.mem_cons,
      List.not_mem_nil, or_false] at hf
    rw [dictContains_append]
    rcases hf with rfl | rfl | rfl | rfl <;>
      simp [dictContains, TYPE_FIELD_NAME, CLIENT_ID_FIELD_NAME,
        CLIENT_SECRET_FIELD_NAME, REFRESH_TOKEN_FIELD_NAME]

/-- Witness for C1 at the all-`None` service-account build. -/
theorem claim_C1_witness :
    dictContains [(TYPE_FIELD_NAME, some TYPE_SERVICE_ACCOUNT),
                  (CLIENT_ID_FIELD_NAME, none), (CLIENT_EMAIL_FIELD_NAME, none),
                  (PRIVATE_KEY_ID_FIELD_NAME, none),
                  (PRIVATE_KEY_FIELD_NAME, none)] PRIVATE_KEY_FIELD_NAME = true :=
  (claim_C1 none none none none none none GOOGLE_TOKEN_URI GOOGLE_REVOKE_URI
      false).1
    [(TYPE_FIELD_NAME, some TYPE_SERVICE_ACCOUNT),
     (CLIENT_ID_FIELD_NAME, none), (CLIENT_EMAIL_FIELD_NAME, none),
     (PRIVATE_KEY_ID_FIELD_NAME, none), (PRIVATE_KEY_FIELD_NAME, none)]
    (by simp [serialize_data, pyIs, saTypeConst, auTypeConst, dictSet, dictContains, dictGet,
        _validate_credential_object, _check_credential_type, setDifference,
        _set_optional_fields, missingFieldsMsg, Except.map,
        TYPE_SERVICE_ACCOUNT, TYPE_AUTHORIZED_USER, TYPE_FIELD_NAME,
        CLIENT_ID_FIELD_NAME, CLIENT_EMAIL_FIELD_NAME,
        PRIVATE_KEY_ID_FIELD_NAME, PRIVATE_KEY_FIELD_NAME,
        CLIENT_SECRET_FIELD_NAME, REFRESH_TOKEN_FIELD_NAME,
        _REQUIRED_SERVICE_ACCOUNT_FIELDS, _REQUIRED_AUTHORIZED_USER_FIELDS,
        Bind.bind, Except.bind]) PRIVATE_KEY_FIELD_NAME (by decide)

end GoogleCredentialsJson

end OAuth2Client

namespace OAuth2Client

namespace GoogleCredentialsJson

theorem serialize_data_sa_eq (ci ce cs pk pki rt : Option String)
    (tu ru : String) (fl : Bool) :
    serialize_data saTypeConst ci ce cs pk pki rt tu ru fl =
      .ok (some ([(TYPE_FIELD_NAME, some TYPE_SERVICE_ACCOUNT),
                  (CLIENT_ID_FIELD_NAME, ci), (CLIENT_EMAIL_FIELD_NAME, ce),
                  (PRIVATE_KEY_ID_FIELD_NAME, pki),
                  (PRIVATE_KEY_FIELD_NAME, pk)] ++
        (if fl then [(TOKEN_URI_FIELD_NAME, some tu),
                     (REVOKE_URI_FIELD_NAME, some ru)] else []))) := by
  cases fl <;>
    simp [serialize_data, pyIs, saTypeConst, auTypeConst, dictSet, dictContains, dictGet,
        _validate_credential_object, _check_credential_type, setDifference,
        _set_optional_fields, missingFieldsMsg, loads, load, Except.map,
        TYPE_SERVICE_ACCOUNT, TYPE_AUTHORIZED_USER, TYPE_FIELD_NAME,
        CLIENT_ID_FIELD_NAME, CLIENT_EMAIL_FIELD_NAME,
        PRIVATE_KEY_ID_FIELD_NAME, PRIVATE_KEY_FIELD_NAME,
        CLIENT_SECRET_FIELD_NAME, REFRESH_TOKEN_FIELD_NAME,
        TOKEN_URI_FIELD_NAME, REVOKE_URI_FIELD_NAME,
        _REQUIRED_SERVICE_ACCOUNT_FIELDS, _REQUIRED_AUTHORIZED_USER_FIELDS,
        Bind.bind, Except.bind]

theorem serialize_data_au_eq (ci ce cs pk pki rt : Option String)
    (tu ru : String) (fl : Bool) :
    serialize_data auTypeConst ci ce cs pk pki rt tu ru fl =
      .ok (some ([(TYPE_FIELD_NAME, some TYPE_AUTHORIZED_USER),
                  (CLIENT_ID_FIELD_NAME, ci), (CLIENT_SECRET_FIELD_NAME, cs),
                  (REFRESH_TOKEN_FIELD_NAME, rt)] ++
        (if fl then [(TOKEN_URI_FIELD_NAME, some tu),
                     (REVOKE_URI_FIELD_NAME, some ru)] else []))) := by
  cases fl <;>
    simp [serialize_data, pyIs, saTypeConst, auTypeConst, dictSet, dictContains, dictGet,
        _validate_credential_object, _check_credential_type, setDifference,
        _set_optional_fields, missingFieldsMsg, loads, load, Except.map,
        TYPE_SERVICE_ACCOUNT, TYPE_AUTHORIZED_USER, TYPE_FIELD_NAME,
        CLIENT_ID_FIELD_NAME, CLIENT_EMAIL_FIELD_NAME,
        PRIVATE_KEY_ID_FIELD_NAME, PRIVATE_KEY_FIELD_NAME,
        CLIENT_SECRET_FIELD_NAME, REFRESH_TOKEN_FIELD_NAME,
        TOKEN_URI_FIELD_NAME, REVOKE_URI_FIELD_NAME,
        _REQUIRED_SERVICE_ACCOUNT_FIELDS, _REQUIRED_AUTHORIZED_USER_FIELDS,
        Bind.bind, Except.bind]

theorem serialize_data_unknown_eq (ci ce cs pk pki rt : Option String)
    (tu ru : String) (fl : Bool) {ct : PyStr}
    (hct1 : ct.val ≠ some TYPE_SERVICE_ACCOUNT)
    (hct2 : ct.val ≠ some TYPE_AUTHORIZED_USER) :
    serialize_data ct ci ce cs pk pki rt tu ru fl =
      .error (.invalidCredentialModel unknownTypeMsg) := by
  have b1 : (ct.val == some TYPE_SERVICE_ACCOUNT) = false := by
    cases hb : ct.val == some TYPE_SERVICE_ACCOUNT
    · rfl
    · exact absurd (eq_of_beq hb) hct1
  have b2 : (ct.val == some TYPE_AUTHORIZED_USER) = false := by
    cases hb : ct.val == some TYPE_AUTHORIZED_USER
    · rfl
    · exact absurd (eq_of_beq hb) hct2
  simp [serialize_data, pyIs, b1, b2, check_credential_type_err hct1 hct2,
        Bind.bind, Except.bind]

theorem setOpt_contains_token (obj : CredObj) (tu ru : String) :
    dictContains (_set_optional_fields obj tu ru) TOKEN_URI_FIELD_NAME = true := by
  rw [set_optional_fields_eq, dictContains_append, dictContains_append]
  cases h1 : dictContains obj TOKEN_URI_FIELD_NAME <;>
    simp [h1, dictContains_single]

theorem setOpt_contains_revoke (obj : CredObj) (tu ru : String) :
    dictContains (_set_optional_fields obj tu ru) REVOKE_URI_FIELD_NAME = true := by
  rw [set_optional_fields_eq, dictContains_append, dictContains_append]
  cases h2 : dictContains obj REVOKE_URI_FIELD_NAME <;>
    simp [h2, dictContains_single]

theorem setOpt_get_preserved (obj : CredObj) (tu ru k : String)
    {v : Option String} (h : dictGet obj k = some v) :
    dictGet (_set_optional_fields obj tu ru) k = some v := by
  rw [set_optional_fields_eq, dictGet_append, dictGet_append, h]
  rfl

theorem setOpt_get_token_default (obj : CredObj) (tu ru : String)
    (h : dictGet obj TOKEN_URI_FIELD_NAME = none) :
    dictGet (_set_optional_fields obj tu ru) TOKEN_URI_FIELD_NAME =
      some (some tu) := by
  have h1 : dictContains obj TOKEN_URI_FIELD_NAME = false :=
    (dictGet_eq_none_iff obj TOKEN_URI_FIELD_NAME).1 h
  rw [set_optional_fields_eq, h1, dictGet_append, dictGet_append, h]
  simp [dictGet, Option.or]

theorem setOpt_get_revoke_default (obj : CredObj) (tu ru : String)
    (h : dictGet obj REVOKE_URI_FIELD_NAME = none) :
    dictGet (_set_optional_fields obj tu ru) REVOKE_URI_FIELD_NAME =
      some (some ru) := by
  have h2 : dictContains obj REVOKE_URI_FIELD_NAME = false :=
    (dictGet_eq_none_iff obj REVOKE_URI_FIELD_NAME).1 h
  rw [set_optional_fields_eq, h2, dictGet_append, dictGet_append, h]
  cases h1 : dictContains obj TOKEN_URI_FIELD_NAME <;>
    simp [h1, dictGet, Option.or,
      show (TOKEN_URI_FIELD_NAME == REVOKE_URI_FIELD_NAME) = false from by decide]

/-- C2 (code bug): the claim — and the spec's propagation policy — says no
input makes build silently return an absent result, but the source guards
its two build branches with object identity (`credential_type is
cls.TYPE_SERVICE_ACCOUNT`, lines 129/140) while the fallback
`_check_credential_type` compares by value, so a string equal to
`service_account` but not identical to the class constant (one sliced,
concatenated or decoded at runtime) skips both branches, passes the value
check without raising, and `serialize_data` falls off the end silently
returning `None` — neither a document nor a typed failure. -/
theorem claim_C2 :
    serialize_data ⟨some TYPE_SERVICE_ACCOUNT, false⟩ none none none none
        none none GOOGLE_TOKEN_URI GOOGLE_REVOKE_URI false = .ok none ∧
    _check_credential_type (some TYPE_SERVICE_ACCOUNT) = .ok () ∧
    (∀ e : CredError,
      serialize_data ⟨some TYPE_SERVICE_ACCOUNT, false⟩ none none none none
        none none GOOGLE_TOKEN_URI GOOGLE_REVOKE_URI false ≠ .error e) := by
  have hc1 : serialize_data ⟨some TYPE_SERVICE_ACCOUNT, false⟩ none none none
      none none none GOOGLE_TOKEN_URI GOOGLE_REVOKE_URI false = .ok none := by
    simp [serialize_data, pyIs, _check_credential_type,
          TYPE_SERVICE_ACCOUNT, TYPE_AUTHORIZED_USER,
          Bind.bind, Except.bind, Pure.pure, Except.pure]
  exact ⟨hc1, rfl, fun e hcontra => by rw [hc1] at hcontra; cases hcontra⟩

/-- C3: for any discriminant whose value equals neither known constant
(whatever its identity bit — on this domain `is` and `==` coincide),
`serialize_data` fails with `InvalidCredentialModelError` carrying the
unknown-type message, whatever the other arguments; parsing any decoded
object whose `type` value is unrecognised likewise fails with the same
error; and the message names both valid values. -/
theorem claim_C3 (ci ce cs pk pki rt : Option String) (tu ru : String)
    (flag : Bool) (ct : PyStr)
    (hct1 : ct.val ≠ some TYPE_SERVICE_ACCOUNT)
    (hct2 : ct.val ≠ some TYPE_AUTHORIZED_USER)
    (obj : CredObj) (v : Option String)
    (hv : dictGet obj TYPE_FIELD_NAME = some v)
    (hv1 : v ≠ some TYPE_SERVICE_ACCOUNT) (hv2 : v ≠ some TYPE_AUTHORIZED_USER) :
    serialize_data ct ci ce cs pk pki rt tu ru flag =
      .error (.invalidCredentialModel unknownTypeMsg) ∧
    loads obj = .error (.invalidCredentialModel unknownTypeMsg) ∧
    unknownTypeMsg =
      "'type' field should be defined (and have one of the 'authorized_user' or 'service_account' values)" := by
  refine ⟨serialize_data_unknown_eq ci ce cs pk pki rt tu ru flag hct1 hct2,
          ?_, by decide⟩
  have hg2 : dictGet (_set_optional_fields obj GOOGLE_TOKEN_URI
      GOOGLE_REVOKE_URI) TYPE_FIELD_NAME = some v :=
    setOpt_get_preserved obj GOOGLE_TOKEN_URI GOOGLE_REVOKE_URI
      TYPE_FIELD_NAME hv
  exact validate_unfold_err _ hg2 (check_credential_type_err hv1 hv2)

/-- Witness for C3 at discriminant value "badtype". -/
theorem claim_C3_witness :
    serialize_data ⟨some "badtype", false⟩ (some "x") none none none none none
        GOOGLE_TOKEN_URI GOOGLE_REVOKE_URI true =
      .error (.invalidCredentialModel unknownTypeMsg) ∧
    loads [(TYPE_FIELD_NAME, some "badtype")] =
      .error (.invalidCredentialModel unknownTypeMsg) ∧
    unknownTypeMsg =
      "'type' field should be defined (and have one of the 'authorized_user' or 'service_account' values)" :=
  claim_C3 (some "x") none none none none none GOOGLE_TOKEN_URI
    GOOGLE_REVOKE_URI true ⟨some "badtype", false⟩ (by decide) (by decide)
    [(TYPE_FIELD_NAME, some "badtype")] (some "badtype") (by decide)
    (by decide) (by decide)

/-- C4: every object parsed successfully by `loads` yields a document that
contains both `token_uri` and `revoke_uri`; whichever of the two the input
already specified is preserved verbatim, and whichever was absent equals the
corresponding process-wide default constant; `load` agrees with `loads` on
the same input. -/
theorem claim_C4 (obj doc : CredObj) (h : loads obj = .ok doc) :
    dictContains doc TOKEN_URI_FIELD_NAME = true ∧
    dictContains doc REVOKE_URI_FIELD_NAME = true ∧
    (∀ v, dictGet obj TOKEN_URI_FIELD_NAME = some v →
      dictGet doc TOKEN_URI_FIELD_NAME = some v) ∧
    (dictGet obj TOKEN_URI_FIELD_NAME = none →
      dictGet doc TOKEN_URI_FIELD_NAME = some (some GOOGLE_TOKEN_URI)) ∧
    (∀ v, dictGet obj REVOKE_URI_FIELD_NAME = some v →
      dictGet doc REVOKE_URI_FIELD_NAME = some v) ∧
    (dictGet obj REVOKE_URI_FIELD_NAME = none →
      dictGet doc REVOKE_URI_FIELD_NAME = some (some GOOGLE_REVOKE_URI)) ∧
    load obj = .ok doc := by
  have hl : _validate_credential_object
      (some (_set_optional_fields obj GOOGLE_TOKEN_URI GOOGLE_REVOKE_URI)) =
      .ok doc := h
  obtain rfl := validate_ok_eq hl
  exact ⟨setOpt_contains_token obj _ _, setOpt_contains_revoke obj _ _,
    fun v hv => setOpt_get_preserved obj _ _ _ hv,
    fun hv => setOpt_get_token_default obj _ _ hv,
    fun v hv => setOpt_get_preserved obj _ _ _ hv,
    fun hv => setOpt_get_revoke_default obj _ _ hv, h⟩

/-- Witness for C4 at a concrete input specifying `token_uri` but not
`revoke_uri`. -/
theorem claim_C4_witness :
    dictGet [(TYPE_FIELD_NAME, some TYPE_AUTHORIZED_USER),
             (CLIENT_ID_FIELD_NAME, some "123"),
             (CLIENT_SECRET_FIELD_NAME, some "secret"),
             (REFRESH_TOKEN_FIELD_NAME, some "alabalaportocala"),
             (TOKEN_URI_FIELD_NAME, some "dummy_token_uri"),
             (REVOKE_URI_FIELD_NAME, some GOOGLE_REVOKE_URI)]
      TOKEN_URI_FIELD_NAME = some (some "dummy_token_uri") :=
  (claim_C4 [(TYPE_FIELD_NAME, some TYPE_AUTHORIZED_USER),
             (CLIENT_ID_FIELD_NAME, some "123"),
             (CLIENT_SECRET_FIELD_NAME, some "secret"),
             (REFRESH_TOKEN_FIELD_NAME, some "alabalaportocala"),
             (TOKEN_URI_FIELD_NAME, some "dummy_token_uri")]
      [(TYPE_FIELD_NAME, some TYPE_AUTHORIZED_USER),
       (CLIENT_ID_FIELD_NAME, some "123"),
       (CLIENT_SECRET_FIELD_NAME, some "secret"),
       (REFRESH_TOKEN_FIELD_NAME, some "alabalaportocala"),
       (TOKEN_URI_FIELD_NAME, some "dummy_token_uri"),
       (REVOKE_URI_FIELD_NAME, some GOOGLE_REVOKE_URI)]
      (by simp [serialize_data, pyIs, saTypeConst, auTypeConst, dictSet, dictContains, dictGet,
        _validate_credential_object, _check_credential_type, setDifference,
        _set_optional_fields, missingFieldsMsg, loads, load, Except.map,
        TYPE_SERVICE_ACCOUNT, TYPE_AUTHORIZED_USER, TYPE_FIELD_NAME,
        CLIENT_ID_FIELD_NAME, CLIENT_EMAIL_FIELD_NAME,
        PRIVATE_KEY_ID_FIELD_NAME, PRIVATE_KEY_FIELD_NAME,
        CLIENT_SECRET_FIELD_NAME, REFRESH_TOKEN_FIELD_NAME,
        TOKEN_URI_FIELD_NAME, REVOKE_URI_FIELD_NAME,
        _REQUIRED_SERVICE_ACCOUNT_FIELDS, _REQUIRED_AUTHORIZED_USER_FIELDS,
        Bind.bind, Except.bind])).2.2.1
    (some "dummy_token_uri") (by decide)

/-- C5: for every document with a known type that is missing required fields
of its variant, validation fails with `InvalidCredentialModelError` whose
message is the comma-joined list of the missing required fields; the missing
list contains every required field absent from the document; and the
concrete input `{"type":"service_account","client_id":"123"}` parsed with
`loads` fails listing exactly `client_email`, `private_key_id`,
`private_key`. -/
theorem claim_C5 :
    (∀ obj : CredObj,
      dictGet obj TYPE_FIELD_NAME = some (some TYPE_SERVICE_ACCOUNT) →
      setDifference _REQUIRED_SERVICE_ACCOUNT_FIELDS obj ≠ [] →
      _validate_credential_object (some obj) =
        .error (.invalidCredentialModel
          (missingFieldsMsg (setDifference _REQUIRED_SERVICE_ACCOUNT_FIELDS obj)))) ∧
    (∀ obj : CredObj,
      dictGet obj TYPE_FIELD_NAME = some (some TYPE_AUTHORIZED_USER) →
      setDifference _REQUIRED_AUTHORIZED_USER_FIELDS obj ≠ [] →
      _validate_credential_object (some obj) =
        .error (.invalidCredentialModel
          (missingFieldsMsg (setDifference _REQUIRED_AUTHORIZED_USER_FIELDS obj)))) ∧
    (∀ (req : List String) (obj : CredObj) (f : String),
      f ∈ req → dictContains obj f = false → f ∈ setDifference req obj) ∧
    loads [(TYPE_FIELD_NAME, some TYPE_SERVICE_ACCOUNT),
           (CLIENT_ID_FIELD_NAME, some "123")] =
      .error (.invalidCredentialModel
        (missingFieldsMsg [CLIENT_EMAIL_FIELD_NAME, PRIVATE_KEY_ID_FIELD_NAME,
                           PRIVATE_KEY_FIELD_NAME])) ∧
    missingFieldsMsg [CLIENT_EMAIL_FIELD_NAME, PRIVATE_KEY_ID_FIELD_NAME,
        PRIVATE_KEY_FIELD_NAME] =
      "The following field(s) must be defined: client_email, private_key_id, private_key" ∧
    setDifference _REQUIRED_SERVICE_ACCOUNT_FIELDS
        (_set_optional_fields
          [(TYPE_FIELD_NAME, some TYPE_SERVICE_ACCOUNT),
           (CLIENT_ID_FIELD_NAME, some "123")]
          GOOGLE_TOKEN_URI GOOGLE_REVOKE_URI) =
      [CLIENT_EMAIL_FIELD_NAME, PRIVATE_KEY_ID_FIELD_NAME,
       PRIVATE_KEY_FIELD_NAME] := by
  have hb : (some TYPE_SERVICE_ACCOUNT == some TYPE_AUTHORIZED_USER) = false := by
    decide
  refine ⟨fun obj hg hne => ?_, fun obj hg hne => ?_, fun req obj f hf hc => ?_,
          ?_, by decide, by decide⟩
  · rw [validate_unfold_ok obj hg rfl]
    simp [hb, hne]
  · rw [validate_unfold_ok obj hg rfl]
    simp [hne]
  · simp [setDifference, List.mem_filter, hf, hc]
  · simp [serialize_data, pyIs, saTypeConst, auTypeConst, dictSet, dictContains, dictGet,
        _validate_credential_object, _check_credential_type, setDifference,
        _set_optional_fields, loads, load, Except.map,
        TYPE_SERVICE_ACCOUNT, TYPE_AUTHORIZED_USER, TYPE_FIELD_NAME,
        CLIENT_ID_FIELD_NAME, CLIENT_EMAIL_FIELD_NAME,
        PRIVATE_KEY_ID_FIELD_NAME, PRIVATE_KEY_FIELD_NAME,
        CLIENT_SECRET_FIELD_NAME, REFRESH_TOKEN_FIELD_NAME,
        TOKEN_URI_FIELD_NAME, REVOKE_URI_FIELD_NAME,
        _REQUIRED_SERVICE_ACCOUNT_FIELDS, _REQUIRED_AUTHORIZED_USER_FIELDS,
        Bind.bind, Except.bind]

/-- Witness for C5 at the service-account document with only the `type`
field present. -/
theorem claim_C5_witness :
    _validate_credential_object
        (some [(TYPE_FIELD_NAME, some TYPE_SERVICE_ACCOUNT)]) =
      .error (.invalidCredentialModel (missingFieldsMsg
        (setDifference _REQUIRED_SERVICE_ACCOUNT_FIELDS
          [(TYPE_FIELD_NAME, some TYPE_SERVICE_ACCOUNT)]))) :=
  claim_C5.1 [(TYPE_FIELD_NAME, some TYPE_SERVICE_ACCOUNT)] (by decide)
    (by decide)

end GoogleCredentialsJson

end OAuth2Client
